import Mathlib

/-!
Verification development for the rfpga FM transmit/receive flowgraph scripts
(USRP1 + RFX900).  The five Python scripts declare GNU Radio block instances,
set their rate/frequency/gain parameters and connect ports.  The definitions
below embed, from the scripts, the declared per-block sample rates and the
port-level connection lists of every constructed flow graph, together with the
configuration-time rate validation of the spec, the sample-buffer /
scheduler-core components (which the scripts configure but do not implement),
and the lifecycle call traces of every termination path.
-/

/-! ## Flow graph rate model

A block as the scripts declare it: an optional declared input sample rate
(absent for pure sources) and an optional declared output sample rate (absent
for pure sinks).  All rates in the five scripts are integers in hertz. -/

structure RBlock where
  name : String
  inRate : Option Nat
  outRate : Option Nat
deriving DecidableEq

/-- One `connect` call: source block index / output port, destination block
index / input port. -/
structure Conn where
  srcBlock : Nat
  srcPort : Nat
  dstBlock : Nat
  dstPort : Nat
deriving DecidableEq

structure FlowGraph where
  blocks : List RBlock
  conns : List Conn
deriving DecidableEq

/-- A connection is rate-consistent when the declared output rate of the
upstream block equals the declared input rate of the downstream block (connections touching a
block with no declared rate on the relevant side are unconstrained). -/
def rateOk (g : FlowGraph) (c : Conn) : Bool :=
  match (g.blocks.get? c.srcBlock).bind RBlock.outRate,
        (g.blocks.get? c.dstBlock).bind RBlock.inRate with
  | some a, some b => a == b
  | _, _ => true

/-- Modelled from the spec: `validate()` walks the graph and fails iff some
declared output rate of some block disagrees with the declared input
rate of the next block.  The flow-graph engine itself is supplied by GNU Radio and is not part
of the sources of this repository. -/
def validate (g : FlowGraph) : Bool :=
  g.conns.all (rateOk g)

/-! ### fm_tx_rx_usrp_1.py, transmitter graph (fm_tx_usrp1_rfx900_audio)

audio_rate = 48000, quad_rate = 480000.
Blocks: 0 audio/tone source at audio_rate; 1 rational_resampler_fff with
interpolation = quad_rate = 480000, decimation = audio_rate = 48000, i.e.
converting a 48000 Hz stream to 480000 Hz; 2 wfm_tx declared with
audio_rate = 48000 input and quad_rate = 480000 output; 3 usrp_sink with
set_samp_rate(quad_rate). -/

def fmTxAudioGraph : FlowGraph :=
  { blocks :=
      [ { name := "audio_source", inRate := none, outRate := some 48000 }
      , { name := "resampler", inRate := some 48000, outRate := some 480000 }
      , { name := "wfm_tx", inRate := some 48000, outRate := some 480000 }
      , { name := "usrp_sink", inRate := some 480000, outRate := none } ]
  , conns :=
      [ ⟨0, 0, 1, 0⟩, ⟨1, 0, 2, 0⟩, ⟨2, 0, 3, 0⟩ ] }

/-! ### fm_tx_rx_usrp_1.py, receiver graph (fm_rx_usrp1_rfx900_audio)

audio_rate = 48000, quad_rate = 500000,
audio_decimation = int(quad_rate / audio_rate) (Python float division then
truncation; for positive integers this is floor division, i.e. Nat division).
wfm_rcv consumes at quad_rate and produces audio at
quad_rate / audio_decimation; the audio sink is declared at audio_rate. -/

def rxQuadRate : Nat := 500000
def rxAudioRate : Nat := 48000
def rxAudioDecimation : Nat := rxQuadRate / rxAudioRate

def fmRxAudioGraph : FlowGraph :=
  { blocks :=
      [ { name := "usrp_source", inRate := none, outRate := some rxQuadRate }
      , { name := "wfm_rcv", inRate := some rxQuadRate
        , outRate := some (rxQuadRate / rxAudioDecimation) }
      , { name := "audio_sink", inRate := some rxAudioRate, outRate := none } ]
  , conns := [ ⟨0, 0, 1, 0⟩, ⟨1, 0, 2, 0⟩ ] }

/-! ### audio_fm_tx.py (AudioFMTX)

audio_rate = 50000, samp_rate = 500000; tone at audio_rate feeds
wfm_tx(audio_rate = 50000, quad_rate = 500000) feeding a usrp_sink at
samp_rate. -/

def audioFmTxGraph : FlowGraph :=
  { blocks :=
      [ { name := "tone", inRate := none, outRate := some 50000 }
      , { name := "fm_mod", inRate := some 50000, outRate := some 500000 }
      , { name := "usrp_sink", inRate := some 500000, outRate := none } ]
  , conns := [ ⟨0, 0, 1, 0⟩, ⟨1, 0, 2, 0⟩ ] }

/-! ### audio_fm_rx.py (AudioFMRX)

samp_rate = 500000, audio_rate = 50000,
audio_decimation = int(samp_rate // audio_rate) = 10; wfm_rcv output rate is
500000 / 10 = 50000 = audio_rate.  The usrp_source also feeds a spectrum
display declared at samp_rate. -/

def audioFmRxGraph : FlowGraph :=
  { blocks :=
      [ { name := "usrp_source", inRate := none, outRate := some 500000 }
      , { name := "fm_rcv", inRate := some 500000
        , outRate := some (500000 / (500000 / 50000)) }
      , { name := "audio_sink", inRate := some 50000, outRate := none }
      , { name := "freq_sink", inRate := some 500000, outRate := none } ]
  , conns := [ ⟨0, 0, 3, 0⟩, ⟨0, 0, 1, 0⟩, ⟨1, 0, 2, 0⟩ ] }

/-! ### transceive.py (tx_rx_demo)

samp_rate = 1e6.  The complex tone tx_signal feeds the usrp_sink and both
display sinks; the usrp_source is constructed but connected to nothing. -/

def txRxDemoGraph : FlowGraph :=
  { blocks :=
      [ { name := "tx_signal", inRate := none, outRate := some 1000000 }
      , { name := "usrp_sink", inRate := some 1000000, outRate := none }
      , { name := "freq_sink", inRate := some 1000000, outRate := none }
      , { name := "time_sink", inRate := some 1000000, outRate := none }
      , { name := "usrp_source", inRate := none, outRate := some 1000000 } ]
  , conns := [ ⟨0, 0, 1, 0⟩, ⟨0, 0, 2, 0⟩, ⟨0, 0, 3, 0⟩ ] }

/-- The five graphs the scripts construct. -/
def allGraphs : List FlowGraph :=
  [fmTxAudioGraph, fmRxAudioGraph, audioFmTxGraph, audioFmRxGraph, txRxDemoGraph]

/-- Number of edges leaving output port `p` of block `b` in graph `g`. -/
def outFanout (g : FlowGraph) (b p : Nat) : Nat :=
  (g.conns.filter (fun c => c.srcBlock == b && c.srcPort == p)).length

/-- Number of edges entering input port `p` of block `b` in graph `g`. -/
def inFanout (g : FlowGraph) (b p : Nat) : Nat :=
  (g.conns.filter (fun c => c.dstBlock == b && c.dstPort == p)).length

/-- Every output port of `g` feeds at most one edge. -/
def outputFanoutOk (g : FlowGraph) : Bool :=
  g.conns.all (fun c => outFanout g c.srcBlock c.srcPort ≤ 1)

/-- Every input port of `g` is fed by at most one edge. -/
def inputFanoutOk (g : FlowGraph) : Bool :=
  g.conns.all (fun c => inFanout g c.dstBlock c.dstPort ≤ 1)

/-- A rate-inconsistent connection forces `validate` to fail. -/
theorem validate_eq_false_of_mismatch (g : FlowGraph) (c : Conn)
    (hc : c ∈ g.conns) (hbad : rateOk g c = false) : validate g = false := by
  unfold validate
  rw [List.all_eq_false]
  exact ⟨c, hc, by simp [hbad]⟩

/-- C1: rate validation on the constructed topologies.  The three graphs whose
declared rates line up validate successfully, but both chains of
fm_tx_rx_usrp_1.py fail: in the receive chain, audio_decimation =
int(500000 / 48000) = 10, so wfm_rcv produces audio at 500000 / 10 = 50000 Hz
while the audio sink is declared at 48000 Hz; in the transmit chain the
resampler output at 480000 Hz feeds wfm_tx, whose declared audio input rate is
48000 Hz. -/
theorem validate_rates_of_constructed_graphs :
    validate audioFmTxGraph = true ∧
    validate audioFmRxGraph = true ∧
    validate txRxDemoGraph = true ∧
    validate fmRxAudioGraph = false ∧
    validate fmTxAudioGraph = false ∧
    rxAudioDecimation = 10 ∧
    rxQuadRate / rxAudioDecimation = 50000 ∧
    rateOk fmRxAudioGraph ⟨1, 0, 2, 0⟩ = false := by
  decide

/-- C2 counterexample: in the tx_rx_demo graph of transceive.py, output port 0
of tx_signal (block 0) feeds three edges, so it is false that every port
connects to at most one edge; audio_fm_rx.py similarly fans usrp_source out to
two edges. -/
theorem output_port_fanout_counterexample :
    txRxDemoGraph ∈ allGraphs ∧
    outFanout txRxDemoGraph 0 0 = 3 ∧
    outputFanoutOk txRxDemoGraph = false ∧
    audioFmRxGraph ∈ allGraphs ∧
    outFanout audioFmRxGraph 0 0 = 2 := by
  decide

/-- C2 amended: in every constructed flow graph, each input port is fed by at
most one edge; output ports may fan out to several downstream inputs (the
display taps). -/
theorem input_port_fanout_at_most_one :
    allGraphs.all inputFanoutOk = true := by
  decide

/-! ## fm_tx_usrp1_rfx900.py device and source parameters

The GRC-generated Qt script constructs a sine source (frequency 1000 Hz,
amplitude 1.0, offset 0.0, sampling frequency samp_rate), a multiply_const_ff
of 0.5, a float_to_complex and a usrp_sink configured with
set_samp_rate(samp_rate), set_center_freq(915e6, 0), set_antenna("TX/RX", 0)
and set_gain(20, 0), where samp_rate = 500e3.  `set_samp_rate` stores the new
rate and pushes it to the signal source and the USRP sink. -/

structure FmTxUsrp1 where
  samp_rate : ℚ
  sig_sampling_freq : ℚ
  sig_frequency : ℚ
  sig_amplitude : ℚ
  sig_offset : ℚ
  mult_const : ℚ
  sink_samp_rate : ℚ
  sink_center_freq : ℚ
  sink_antenna : String
  sink_gain : ℚ
deriving DecidableEq

/-- The state of fm_tx_usrp1_rfx900 right after `__init__`. -/
def fmTxUsrp1Init : FmTxUsrp1 :=
  { samp_rate := 500000
  , sig_sampling_freq := 500000
  , sig_frequency := 1000
  , sig_amplitude := 1
  , sig_offset := 0
  , mult_const := 1/2
  , sink_samp_rate := 500000
  , sink_center_freq := 915000000
  , sink_antenna := "TX/RX"
  , sink_gain := 20 }

/-- The setter `set_samp_rate` stores the new samp_rate and pushes it to the
sampling frequency of the signal source and the sample rate of the USRP sink,
touching nothing else. -/
def set_samp_rate (s : FmTxUsrp1) (r : ℚ) : FmTxUsrp1 :=
  { s with samp_rate := r, sig_sampling_freq := r, sink_samp_rate := r }

/-- C8: after `set_samp_rate r`, the sampling frequency of the signal source
and the sample rate of the USRP sink both equal `r` (hence each other), and the center
frequency, antenna, gain, tone frequency, amplitude, offset and multiplier
constant are unchanged. -/
theorem set_samp_rate_frame_effect (s : FmTxUsrp1) (r : ℚ) :
    (set_samp_rate s r).sig_sampling_freq = r ∧
    (set_samp_rate s r).sink_samp_rate = r ∧
    (set_samp_rate s r).sig_sampling_freq = (set_samp_rate s r).sink_samp_rate ∧
    (set_samp_rate s r).samp_rate = r ∧
    (set_samp_rate s r).sink_center_freq = s.sink_center_freq ∧
    (set_samp_rate s r).sink_antenna = s.sink_antenna ∧
    (set_samp_rate s r).sink_gain = s.sink_gain ∧
    (set_samp_rate s r).sig_frequency = s.sig_frequency ∧
    (set_samp_rate s r).sig_amplitude = s.sig_amplitude ∧
    (set_samp_rate s r).sig_offset = s.sig_offset ∧
    (set_samp_rate s r).mult_const = s.mult_const := by
  refine ⟨rfl, rfl, rfl, rfl, rfl, rfl, rfl, rfl, rfl, rfl, rfl⟩

/-! ## Microphone fallback in fm_tx_rx_usrp_1.py

The transmit constructor takes a `fallback` flag: with `fallback = True` it
prints a warning and uses the 1 kHz sine test tone; with `fallback = False` it
opens the ALSA microphone, which may raise RuntimeError.  The `__main__` TX
path builds the graph with `fallback = not args.mic` and, on RuntimeError,
prints an error and rebuilds with `fallback = True`. -/

inductive TxSource
  | mic
  | tone
deriving DecidableEq

structure TxFlowGraph where
  source : TxSource
  audio_rate : Nat
  quad_rate : Nat
deriving DecidableEq

def warnMsg : String := "[WARN] Audio input unavailable, using test tone."
def errMsg : String := "[ERROR] Failed to initialize microphone. Falling back to test tone."

def micGraph : TxFlowGraph := { source := .mic, audio_rate := 48000, quad_rate := 480000 }
def toneGraph : TxFlowGraph := { source := .tone, audio_rate := 48000, quad_rate := 480000 }

/-- The fm_tx_usrp1_rfx900_audio constructor: returns the constructed graph
and the lines it printed, or the RuntimeError raised by microphone
initialization (`micOk` abstracts whether the ALSA device opens). -/
def fm_tx_init (fallback micOk : Bool) : Except String (TxFlowGraph × List String) :=
  if fallback then
    .ok (toneGraph, [warnMsg])
  else if micOk then
    .ok (micGraph, [])
  else
    .error "RuntimeError: audio_alsa_source"

/-- The `__main__` transmit path: construct with `fallback = not useMic`,
catching RuntimeError by printing an error and reconstructing with
`fallback = True`. -/
def txMain (micOk useMic : Bool) : TxFlowGraph × List String :=
  match fm_tx_init (!useMic) micOk with
  | .ok r => r
  | .error _ =>
    match fm_tx_init true micOk with
    | .ok r => (r.1, errMsg :: r.2)
    | .error _ => (toneGraph, [errMsg])

/-- C7: the transmit graph built by `__main__` uses the microphone only when
the microphone initialized successfully and was requested; in every other case
it is the fully constructed tone-fallback graph and the warning is emitted
(the fallback constructor itself never fails). -/
theorem mic_failure_tone_fallback (micOk useMic : Bool) :
    (txMain micOk useMic).1 = (if micOk && useMic then micGraph else toneGraph) ∧
    ((txMain micOk useMic).1.source = TxSource.mic ↔ (micOk && useMic) = true) ∧
    (warnMsg ∈ (txMain micOk useMic).2 ↔ (micOk && useMic) = false) ∧
    fm_tx_init true micOk = .ok (toneGraph, [warnMsg]) := by
  cases micOk <;> cases useMic <;> exact ⟨rfl, by decide, by decide, rfl⟩

/-! ## Lifecycle controller

Modelled from the spec: the graph is in exactly one of
{Configured, Running, Stopping, Stopped}; `stop()` drives
Running → Stopping → Stopped within the call (drain complete, threads
joined), and a second `stop()` issued while Stopping or once Stopped has no
further effect.  The lifecycle engine is the GNU Radio `gr.top_block`, not code
of this repository. -/

inductive LifecycleState
  | Configured
  | Running
  | Stopping
  | Stopped
deriving DecidableEq

def lifecycleStop : LifecycleState → LifecycleState
  | .Running => .Stopped
  | .Stopping => .Stopping
  | .Stopped => .Stopped
  | .Configured => .Configured

/-- C6: `stop()` from Running reaches Stopped (the call itself completes the
bounded Running → Stopping → Stopped drain), and a second `stop()` — from
Stopping, from Stopped, or after any call at all — leaves the state
unchanged: `stop` is idempotent. -/
theorem lifecycle_stop_idempotent :
    lifecycleStop .Running = .Stopped ∧
    lifecycleStop .Stopping = .Stopping ∧
    lifecycleStop .Stopped = .Stopped ∧
    ∀ s : LifecycleState, lifecycleStop (lifecycleStop s) = lifecycleStop s := by
  refine ⟨rfl, rfl, rfl, ?_⟩
  intro s
  cases s <;> rfl

/-! ## Lifecycle calls on the termination paths of the five scripts

For each script and each of its termination events following a successful
`start()`, the list of lifecycle calls the script then makes, read off the
source:

* fm_tx_rx_usrp_1.py `__main__`: `input()` inside `try`, with `tb.stop();
  tb.wait()` in the `finally` block — so both on the Enter keypress and when
  an exception (e.g. KeyboardInterrupt) escapes `input()`, the trace is
  [stop, wait].
* fm_tx_usrp1_rfx900.py: `sig_handler` (SIGINT/SIGTERM) runs `tb.stop();
  tb.wait(); Qt.QApplication.quit()`, and `closeEvent` runs `self.stop();
  self.wait()`.
* audio_fm_rx.py: `closeEvent` runs `self.stop(); self.wait()`, but its
  `sig_handler` only calls `Qt.QApplication.quit()` — no stop, no wait.
* transceive.py: same shape as audio_fm_rx.py.
* audio_fm_tx.py `main`: KeyboardInterrupt is caught and `tb.stop();
  tb.wait()` follow. -/

inductive LCall
  | start
  | stop
  | wait
deriving DecidableEq

inductive RScript
  | fmTxRxCli
  | fmTxUsrp1Gui
  | audioFmRxGui
  | transceiveGui
  | audioFmTxCli
deriving DecidableEq

inductive TermEvent
  | enterKey
  | interruptException
  | sigint
  | sigterm
  | windowClose
  | keyboardInterrupt
deriving DecidableEq

/-- The termination events each script can experience after `start()`. -/
def terminationEvents : RScript → List TermEvent
  | .fmTxRxCli => [.enterKey, .interruptException]
  | .fmTxUsrp1Gui => [.sigint, .sigterm, .windowClose]
  | .audioFmRxGui => [.sigint, .sigterm, .windowClose]
  | .transceiveGui => [.sigint, .sigterm, .windowClose]
  | .audioFmTxCli => [.keyboardInterrupt]

/-- The lifecycle calls each script makes on each termination path (empty for
events the script does not have). -/
def lifecycleTrace : RScript → TermEvent → List LCall
  | .fmTxRxCli, .enterKey => [.stop, .wait]
  | .fmTxRxCli, .interruptException => [.stop, .wait]
  | .fmTxUsrp1Gui, .sigint => [.stop, .wait]
  | .fmTxUsrp1Gui, .sigterm => [.stop, .wait]
  | .fmTxUsrp1Gui, .windowClose => [.stop, .wait]
  | .audioFmRxGui, .windowClose => [.stop, .wait]
  | .transceiveGui, .windowClose => [.stop, .wait]
  | .audioFmTxCli, .keyboardInterrupt => [.stop, .wait]
  | _, _ => []

/-- Holds when `wait` appears only after a `stop` in the trace. -/
def waitOnlyAfterStop (t : List LCall) : Bool :=
  !((t.takeWhile (fun c => c != LCall.stop)).contains LCall.wait)

/-- The reading the claim makes of a termination path: `stop` is invoked, `wait` is
invoked, and every `wait` comes after a `stop`. -/
def stopThenWaitInvoked (t : List LCall) : Bool :=
  t.contains LCall.stop && t.contains LCall.wait && waitOnlyAfterStop t

/-- C10 counterexample: it is false that every termination path of every
script invokes `stop()` and then `wait()`: the SIGINT handler of
audio_fm_rx.py only calls `Qt.QApplication.quit()`, so its trace contains
neither call (likewise SIGTERM, and both signals in transceive.py). -/
theorem termination_stop_wait_counterexample :
    ¬ (∀ s : RScript, ∀ e ∈ terminationEvents s,
        stopThenWaitInvoked (lifecycleTrace s e) = true) := by
  intro h
  exact absurd (h RScript.audioFmRxGui TermEvent.sigint (by decide)) (by decide)

/-- C10 amended: on every termination path of every script, `wait()` is only
ever invoked after a `stop()` (and a path invokes `wait` exactly when it
invokes `stop`); the Enter-key, interrupt-exception, window-close,
KeyboardInterrupt and fm_tx_usrp1_rfx900 signal-handler paths all invoke
exactly [stop, wait], and in the CLI script both outcomes of the interactive
wait — normal Enter and an escaping exception — run the stop/wait pair, since
it sits in a `finally` block; but the SIGINT/SIGTERM handlers of
audio_fm_rx.py and transceive.py invoke neither `stop` nor `wait`. -/
theorem termination_wait_only_after_stop :
    (∀ s : RScript, ∀ e : TermEvent,
        waitOnlyAfterStop (lifecycleTrace s e) = true ∧
        (lifecycleTrace s e).contains LCall.wait
          = (lifecycleTrace s e).contains LCall.stop) ∧
    lifecycleTrace RScript.fmTxRxCli TermEvent.enterKey = [LCall.stop, LCall.wait] ∧
    lifecycleTrace RScript.fmTxRxCli TermEvent.interruptException
      = [LCall.stop, LCall.wait] ∧
    lifecycleTrace RScript.audioFmRxGui TermEvent.sigint = [] ∧
    lifecycleTrace RScript.transceiveGui TermEvent.sigint = [] := by
  refine ⟨?_, rfl, rfl, rfl, rfl⟩
  intro s e
  cases s <;> cases e <;> exact ⟨rfl, rfl⟩

/-! ## The transmit tone path of fm_tx_usrp1_rfx900.py

signal_source_0 is a real sine source: sample n of
`sig_source_f(samp_rate, GR_SIN_WAVE, freq, amplitude, offset)` is
amplitude * sin(2π * freq * n / samp_rate) + offset; here samp_rate = 500e3,
freq = 1000, amplitude = 1.0, offset = 0.0.  multiply_const_ff multiplies by
0.5 and float_to_complex packs a real sample into a complex one with zero
imaginary part. -/

noncomputable def sig_source_f (samp_rate freq amplitude offset : ℝ) (n : ℕ) : ℝ :=
  amplitude * Real.sin (2 * Real.pi * freq * n / samp_rate) + offset

def multiply_const_ff (k x : ℝ) : ℝ := k * x

def float_to_complex (x : ℝ) : ℂ := ⟨x, 0⟩

/-- Sample n produced by the chain in the script:
sig_source_f (amplitude 1.0) → multiply_const_ff 0.5 → float_to_complex. -/
noncomputable def txTonePath (n : ℕ) : ℂ :=
  float_to_complex (multiply_const_ff 0.5 (sig_source_f 500000 1000 1.0 0.0 n))

/-- The refinement target, following the words of the claim: a direct
amplitude-0.5 tone source followed by zero-imaginary packing. -/
noncomputable def directHalfTonePath (n : ℕ) : ℂ :=
  float_to_complex (sig_source_f 500000 1000 0.5 0.0 n)

/-- C9: the scaled-and-converted transmit tone chain equals the direct
amplitude-0.5 tone followed by zero-imaginary packing: sample n has real part
0.5 * sin(2π * 1000 * n / 500000) and imaginary part 0. -/
theorem tone_path_refines_direct_half_tone (n : ℕ) :
    txTonePath n = directHalfTonePath n ∧
    (txTonePath n).re = 0.5 * Real.sin (2 * Real.pi * 1000 * n / 500000) ∧
    (txTonePath n).im = 0 := by
  refine ⟨?_, ?_, rfl⟩
  · unfold txTonePath directHalfTonePath float_to_complex multiply_const_ff sig_source_f
    norm_num
  · unfold txTonePath float_to_complex multiply_const_ff sig_source_f
    norm_num

/-! ## Wideband FM modulator

Modelled from the spec: `analog.wfm_tx(audio_rate, quad_rate, tau, max_dev)`
is implemented by GNU Radio, not by this repository.  Per the spec its
internal state is an integrated phase accumulator: for each real input
sample, phase += 2π * max_dev * sample / quad_rate, and the corresponding
complex output sample is exp(j * phase). -/

noncomputable def wfmTxProcess (audio_rate quad_rate tau max_dev : ℝ) :
    ℝ → List ℝ → ℝ × List ℂ
  | phase, [] => (phase, [])
  | phase, x :: xs =>
    ((wfmTxProcess audio_rate quad_rate tau max_dev
        (phase + 2 * Real.pi * max_dev * x / quad_rate) xs).1,
      Complex.exp (↑(phase + 2 * Real.pi * max_dev * x / quad_rate) * Complex.I) ::
        (wfmTxProcess audio_rate quad_rate tau max_dev
          (phase + 2 * Real.pi * max_dev * x / quad_rate) xs).2)

/-- C3: closed form of the modulator.  Processing a chunk from phase state
`phi` leaves the accumulator at `phi` plus 2π * max_dev / quad_rate times the
chunk sum (each sample advances the phase by 2π * max_dev * sample /
quad_rate), and the n-th output sample is exactly exp(j * phase_n) where
phase_n is the accumulator after the first n+1 samples — so the output is a
deterministic function of the phase state and the input chunk. -/
theorem wfm_tx_phase_accumulator (audio_rate quad_rate tau max_dev phi : ℝ)
    (xs : List ℝ) :
    (wfmTxProcess audio_rate quad_rate tau max_dev phi xs).1
      = phi + 2 * Real.pi * max_dev * xs.sum / quad_rate ∧
    (wfmTxProcess audio_rate quad_rate tau max_dev phi xs).2
      = (List.range xs.length).map (fun n =>
          Complex.exp
            (↑(phi + 2 * Real.pi * max_dev * ((xs.take (n + 1)).sum) / quad_rate)
              * Complex.I)) := by
  induction xs generalizing phi with
  | nil => simp [wfmTxProcess]
  | cons x xs ih =>
    obtain ⟨ih1, ih2⟩ := ih (phi + 2 * Real.pi * max_dev * x / quad_rate)
    constructor
    · show (wfmTxProcess audio_rate quad_rate tau max_dev
          (phi + 2 * Real.pi * max_dev * x / quad_rate) xs).1 = _
      rw [ih1, List.sum_cons]
      ring
    · show Complex.exp _ :: (wfmTxProcess audio_rate quad_rate tau max_dev
          (phi + 2 * Real.pi * max_dev * x / quad_rate) xs).2 = _
      rw [ih2, List.length_cons, List.range_succ_eq_map, List.map_cons,
        List.map_map]
      congr 1
      · congr 2
        rw [Complex.ofReal_inj]
        rw [List.take_succ_cons, List.take_zero, List.sum_cons, List.sum_nil]
        ring
      · refine List.map_congr_left fun n _ => ?_
        simp only [Function.comp_apply]
        congr 2
        rw [Complex.ofReal_inj]
        rw [List.take_succ_cons, List.sum_cons]
        ring 

/-! ## Sample buffer

Modelled from the spec: a contiguous, fixed-capacity, circular buffer of
samples with a read cursor and a fill level.  `write(samples)` appends up to
capacity-available samples after the current content and returns the count
written; `read(max_count)` returns up to `max_count` available samples
starting at the read cursor without removing them; `consume(count)` advances
the read cursor.  A Sink pulling from an empty buffer receives `count`
zero-valued samples and the underrun counter increments by 1; the pull is a
total function (it never blocks or fails).  The buffering engine belongs to GNU
Radio, not to the code of this repository. -/

structure SampleBuffer (α : Type) where
  capacity : Nat
  store : Nat → α
  readPos : Nat
  size : Nat
  underruns : Nat

namespace SampleBuffer

/-- Write the elements of `l` into circular storage `st` of size `cap`,
starting at slot `pos % cap`. -/
def storeWrite {α : Type} (cap : Nat) : (Nat → α) → Nat → List α → (Nat → α)
  | st, _, [] => st
  | st, pos, x :: xs =>
    storeWrite cap (fun i => if i = pos % cap then x else st i) (pos + 1) xs

/-- Append up to capacity-available samples; the returned count may be less
than requested (partial write signals backpressure). -/
def write {α : Type} (b : SampleBuffer α) (s : List α) : SampleBuffer α × Nat :=
  ({ b with
      store := storeWrite b.capacity b.store (b.readPos + b.size)
        (s.take (min s.length (b.capacity - b.size)))
    , size := b.size + min s.length (b.capacity - b.size) },
    min s.length (b.capacity - b.size))

/-- Peek up to `n` available samples starting at the read cursor. -/
def read {α : Type} (b : SampleBuffer α) (n : Nat) : List α :=
  (List.range (min n b.size)).map (fun i => b.store ((b.readPos + i) % b.capacity))

/-- Advance the read cursor past up to `n` samples. -/
def consume {α : Type} (b : SampleBuffer α) (n : Nat) : SampleBuffer α :=
  { b with
      readPos := (b.readPos + min n b.size) % b.capacity
    , size := b.size - min n b.size }

/-- A Sink pulling `count` samples: on an empty buffer, emit `count` zeros and
bump the underrun counter; otherwise hand out what is available, zero-padded
to `count`, and consume it. -/
def sinkPull {α : Type} [Zero α] (b : SampleBuffer α) (count : Nat) :
    List α × SampleBuffer α :=
  if b.size = 0 then
    (List.replicate count 0, { b with underruns := b.underruns + 1 })
  else
    (b.read count ++ List.replicate (count - min count b.size) 0, b.consume count)

theorem storeWrite_not_written {α : Type} (cap : Nat) (st : Nat → α) (pos : Nat)
    (l : List α) (q : Nat) (h : ∀ i < l.length, (pos + i) % cap ≠ q) :
    storeWrite cap st pos l q = st q := by
  induction l generalizing st pos with
  | nil => rfl
  | cons x xs ih =>
    have h0 : pos % cap ≠ q := by
      have := h 0 (by simp)
      simpa using this
    have h1 : ∀ i < xs.length, (pos + 1 + i) % cap ≠ q := by
      intro i hi
      have := h (i + 1) (by simp; omega)
      have harith : pos + (i + 1) = pos + 1 + i := by omega
      rwa [harith] at this
    rw [storeWrite, ih _ _ h1]
    show (if q = pos % cap then x else st q) = st q
    rw [if_neg (Ne.symm h0)]

theorem storeWrite_written {α : Type} (cap : Nat) (st : Nat → α) (pos : Nat)
    (l : List α) (hl : l.length ≤ cap) (i : Nat) (hi : i < l.length) :
    storeWrite cap st pos l ((pos + i) % cap) = l.get ⟨i, hi⟩ := by
  induction l generalizing st pos i with
  | nil => exact absurd hi (by simp)
  | cons x xs ih =>
    cases i with
    | zero =>
      rw [storeWrite]
      rw [storeWrite_not_written]
      · simp
      · intro j hj heq
        have hmod : (pos + (j + 1)) % cap = pos % cap := by
          have harith : pos + 1 + j = pos + (j + 1) := by omega
          rw [harith] at heq
          simpa using heq
        have hdvd : cap ∣ j + 1 := by
          have hmq : Nat.ModEq cap pos (pos + (j + 1)) := hmod.symm
          have := (Nat.modEq_iff_dvd' (Nat.le_add_right _ _)).mp hmq
          simpa using this
        have hle : cap ≤ j + 1 := Nat.le_of_dvd (Nat.succ_pos _) hdvd
        have : xs.length + 1 ≤ cap := by simpa using hl
        omega
    | succ i =>
      rw [storeWrite]
      have harith : pos + (i + 1) = pos + 1 + i := by omega
      rw [harith]
      have hxl : xs.length ≤ cap := le_trans (Nat.le_succ _) (by simpa using hl)
      rw [ih _ _ hxl i (Nat.lt_of_succ_lt_succ hi)]
      simp

end SampleBuffer

/-- C4 counterexample to the claim as stated: writing `[7]` to a buffer at
fill level 1 (below its capacity 2) and then reading one sample returns the
pre-existing FIFO content `[0]`, not the freshly written `[7]` — `read`
starts at the read cursor, so with a nonzero fill level the samples returned
are the old ones. -/
def preFilledBuf : SampleBuffer ℤ :=
  { capacity := 2, store := fun _ => 0, readPos := 0, size := 1, underruns := 0 }

theorem buffer_roundtrip_nonempty_counterexample :
    preFilledBuf.size = 1 ∧
    preFilledBuf.size < preFilledBuf.capacity ∧
    (preFilledBuf.write [7]).1.read 1 = [0] ∧
    ([0] : List ℤ) ≠ [7] := by
  refine ⟨rfl, by decide, ?_, by decide⟩
  rfl

/-- C4 amended: for a fill level strictly below capacity and a chunk that
fits in the remaining room, `write` writes the whole chunk, and reading (then
consuming) `len(s)` samples after the pre-existing fill has been consumed
returns exactly the samples written, in order, including when the written
region wraps around the end of the circular storage. -/
theorem buffer_write_read_roundtrip {α : Type} (b : SampleBuffer α) (s : List α)
    (hfill : b.size < b.capacity) (hroom : s.length ≤ b.capacity - b.size) :
    (b.write s).2 = s.length ∧
    ((b.write s).1.consume b.size).read s.length = s := by
  have hw : min s.length (b.capacity - b.size) = s.length := Nat.min_eq_left hroom
  have hcap : s.length ≤ b.capacity := by omega
  constructor
  · simp [SampleBuffer.write, hw]
  · have hmin1 : min b.size (b.size + s.length) = b.size :=
      Nat.min_eq_left (Nat.le_add_right _ _)
    apply List.ext_getElem
    · simp [SampleBuffer.read, SampleBuffer.write, SampleBuffer.consume, hw, hmin1]
    · intro n h1 h2
      simp only [SampleBuffer.read, SampleBuffer.write, SampleBuffer.consume, hw,
        hmin1, List.take_length, Nat.add_sub_cancel_left, Nat.min_self,
        List.getElem_map, List.getElem_range, Nat.mod_add_mod]
      rw [SampleBuffer.storeWrite_written b.capacity b.store (b.readPos + b.size) s
        hcap n h2]
      simp

/-- A buffer of capacity 3 whose write region will wrap: the read cursor is at
slot 2 with one sample in flight, so writing two samples lands in slots 0
and 1. -/
def wrapBuf : SampleBuffer ℤ :=
  { capacity := 3, store := fun _ => 9, readPos := 2, size := 1, underruns := 0 }

theorem buffer_write_read_roundtrip_witness :
    (wrapBuf.size < wrapBuf.capacity ∧
      ([4, 5] : List ℤ).length ≤ wrapBuf.capacity - wrapBuf.size) ∧
    ((wrapBuf.write [4, 5]).2 = ([4, 5] : List ℤ).length ∧
      ((wrapBuf.write [4, 5]).1.consume wrapBuf.size).read
        ([4, 5] : List ℤ).length = [4, 5]) :=
  ⟨⟨by decide, by decide⟩,
    buffer_write_read_roundtrip wrapBuf [4, 5] (by decide) (by decide)⟩

/-- C5: a Sink pulling `count` samples from an empty buffer receives exactly
`count` zero-valued samples, the underrun counter increases by exactly 1, and
nothing else in the buffer changes; `sinkPull` is a total function, so the
pull neither blocks nor fails. -/
theorem sink_underrun_zero_fill {α : Type} [Zero α] (b : SampleBuffer α)
    (count : Nat) (hempty : b.size = 0) :
    (b.sinkPull count).1 = List.replicate count 0 ∧
    (b.sinkPull count).1.length = count ∧
    (b.sinkPull count).2.underruns = b.underruns + 1 ∧
    (b.sinkPull count).2.readPos = b.readPos ∧
    (b.sinkPull count).2.size = b.size ∧
    (b.sinkPull count).2.capacity = b.capacity := by
  simp [SampleBuffer.sinkPull, hempty]

/-- An empty buffer of capacity 4 with two underruns already recorded. -/
def emptyBuf : SampleBuffer ℤ :=
  { capacity := 4, store := fun _ => 0, readPos := 1, size := 0, underruns := 2 }

theorem sink_underrun_zero_fill_witness :
    emptyBuf.size = 0 ∧
    ((emptyBuf.sinkPull 3).1 = List.replicate 3 0 ∧
      (emptyBuf.sinkPull 3).1.length = 3 ∧
      (emptyBuf.sinkPull 3).2.underruns = emptyBuf.underruns + 1 ∧
      (emptyBuf.sinkPull 3).2.readPos = emptyBuf.readPos ∧
      (emptyBuf.sinkPull 3).2.size = emptyBuf.size ∧
      (emptyBuf.sinkPull 3).2.capacity = emptyBuf.capacity) :=
  ⟨rfl, sink_underrun_zero_fill emptyBuf 3 rfl⟩
